import Mathlib

/-!
Shallow embedding of the component-import pipeline of the Priority-CMS
repository (src/src/tools and src/src/lib), together with proofs that settle
the claims of the specification against it.

String primitives are implemented structurally over the character list
underlying `String`, mirroring the JavaScript string operations the source
uses (`split`, `trim`, `toLowerCase`, `includes`, `endsWith`,
`replace`-first-occurrence), so that every definition evaluates inside the
kernel.
-/

namespace PriorityCMS

/-- True when `pat` starts the list `l` (character-level helper). -/
def listStartsWith : List Char → List Char → Bool
  | [], _ => true
  | _ :: _, [] => false
  | a :: as, b :: bs => a == b && listStartsWith as bs

/-- Substring test: `pat` occurs as a contiguous run inside `l`
(JavaScript `String.prototype.includes`). -/
def listContainsSub : List Char → List Char → Bool
  | pat, [] => pat.isEmpty
  | pat, c :: rest => listStartsWith pat (c :: rest) || listContainsSub pat rest

/-- JavaScript `s.includes(pat)`. -/
def strIncludes (s pat : String) : Bool :=
  listContainsSub pat.data s.data

/-- JavaScript `s.endsWith(pat)`. -/
def strEndsWith (s pat : String) : Bool :=
  listStartsWith pat.data.reverse s.data.reverse

/-- Remove the first occurrence of `pat` from `l`; if `pat` does not occur,
`l` is returned unchanged (JavaScript `s.replace(pat, '')` with a string
pattern, which replaces only the first occurrence). -/
def dropFirstOcc (pat : List Char) : List Char → List Char
  | [] => []
  | c :: rest =>
    if listStartsWith pat (c :: rest) then (c :: rest).drop pat.length
    else c :: dropFirstOcc pat rest

/-- JavaScript `s.replace(pat, '')` (first occurrence only). -/
def replaceFirstStr (s pat : String) : String :=
  String.mk (dropFirstOcc pat.data s.data)

/-- JavaScript `s.split(c)[0]`: the characters before the first occurrence
of the separator character. -/
def takeUntilChar (c : Char) (s : String) : String :=
  String.mk (s.data.takeWhile (fun a => a != c))

/-- JavaScript `s.split(c)` as a list of chunks (never empty). -/
def splitOnChar (c : Char) : List Char → List (List Char)
  | [] => [[]]
  | a :: rest =>
    let r := splitOnChar c rest
    if a == c then [] :: r
    else
      match r with
      | [] => [[a]]
      | h :: t => (a :: h) :: t

/-- JavaScript `s.trim()` (ASCII whitespace suffices for the inputs at hand). -/
def trimStr (s : String) : String :=
  String.mk (((s.data.dropWhile Char.isWhitespace).reverse.dropWhile
    Char.isWhitespace).reverse)

/-- JavaScript `s.toLowerCase()` (ASCII). -/
def lowerStr (s : String) : String :=
  String.mk (s.data.map Char.toLower)

/-- First character upper-cased, rest untouched:
`s.charAt(0).toUpperCase() + s.slice(1)`. -/
def capitalizeFirst (s : String) : String :=
  match s.data with
  | [] => ""
  | c :: rest => String.mk (c.toUpper :: rest)

/-- JavaScript `s || d` for strings: `d` when `s` is missing or empty. -/
def orDefault (s : Option String) (d : String) : String :=
  match s with
  | some v => if v == "" then d else v
  | none => d

/-! ## Data model (src/src/tools/component-parser.ts interfaces) -/

/-- Structure `ComponentProp` of component-parser.ts. -/
structure ComponentProp where
  name : String
  type : String
  required : Bool
  description : Option String := none
deriving Repr, DecidableEq

/-- Structure `ComponentAnalysis` of component-parser.ts; `description` uses the empty
string as the "not set" sentinel, exactly as the source initializes it. -/
structure ComponentAnalysis where
  name : String
  props : List ComponentProp
  hasChildren : Bool
  imports : List String
  description : String := ""
deriving Repr, DecidableEq

/-! ## Schema Generator (src/src/tools/template-generator.ts) -/

/-- The `typeMap` table of `mapPropTypeToFieldType`, in source order. -/
def typeMapTable : List (String × String) :=
  [("string", "Text"),
   ("number", "Number"),
   ("boolean", "Boolean"),
   ("Date", "Date"),
   ("ReactNode", "RichText"),
   ("ReactElement", "RichText"),
   ("JSX.Element", "RichText"),
   ("React.ReactNode", "RichText"),
   ("React.ReactElement", "RichText"),
   ("React.JSX.Element", "RichText"),
   ("string[]", "MultiSelect"),
   ("Array<string>", "MultiSelect"),
   ("Record<string, any>", "JSON"),
   ("object", "JSON"),
   ("any", "Text")]

/-- Reduction `const baseType = propType.split('<')[0].split('|')[0].trim();` -/
def baseTypeOf (propType : String) : String :=
  trimStr (takeUntilChar '|' (takeUntilChar '<' propType))

/-- Function `mapPropTypeToFieldType` of template-generator.ts: strip generics and
unions, check image- and URL-related substrings of the lower-cased base
type, then fall back to the table lookup with default `'Text'`. -/
def mapPropTypeToFieldType (propType : String) : String :=
  let baseType := baseTypeOf propType
  if strIncludes (lowerStr baseType) "image"
      || strIncludes (lowerStr baseType) "img"
      || strIncludes (lowerStr baseType) "picture" then "Image"
  else if strIncludes (lowerStr baseType) "url"
      || strIncludes (lowerStr baseType) "link"
      || strIncludes (lowerStr baseType) "href" then "URL"
  else (typeMapTable.lookup baseType).getD "Text"

/-- Function `formatPropName`: insert a space before each ASCII capital, capitalize
the first character, trim. -/
def formatPropName (name : String) : String :=
  trimStr (capitalizeFirst (String.mk
    (name.data.flatMap (fun c => if c.isUpper then [' ', c] else [c]))))

/-- Structure `FieldValidation`; the generator only ever populates `required`. -/
structure FieldValidation where
  required : Bool
deriving Repr, DecidableEq

/-- Structure `TemplateField`; the generator always populates exactly these fields. -/
structure TemplateField where
  id : String
  name : String
  description : String
  type : String
  validation : FieldValidation
  is_searchable : Bool
  order : Nat
deriving Repr, DecidableEq

/-- Structure `TemplateSection` as populated by the generator. -/
structure TemplateSection where
  id : String
  name : String
  description : String
  fields : List TemplateField
  is_repeatable : Bool
  order : Nat
deriving Repr, DecidableEq

/-- Structure `TemplateCreate` as populated by the generator. -/
structure TemplateCreate where
  name : String
  description : String
  type : String
  sections : List TemplateSection
  status : String
  is_default : Bool
  tags : List String
deriving Repr, DecidableEq

/-- JavaScript `array.map((x, i) => f i x)` starting at index `start`. -/
def mapWithIndex (f : Nat → α → β) : Nat → List α → List β
  | _, [] => []
  | i, a :: as => f i a :: mapWithIndex f (i + 1) as

/-- One field of `generateTemplate`'s `component.props.map((prop, index) => ...)`. -/
def propToField (componentName : String) (index : Nat) (prop : ComponentProp) :
    TemplateField :=
  { id := prop.name
    name := formatPropName prop.name
    description := orDefault prop.description
      (formatPropName prop.name ++ " for the " ++ componentName ++ " component")
    type := mapPropTypeToFieldType prop.type
    validation := { required := prop.required }
    is_searchable := prop.name == "title" || prop.name == "heading"
      || prop.name == "text"
    order := index }

/-- The synthetic field pushed when `component.hasChildren`. -/
def contentField (componentName : String) (order : Nat) : TemplateField :=
  { id := "content"
    name := "Content"
    description := "Content for the " ++ componentName ++ " component"
    type := "RichText"
    validation := { required := false }
    is_searchable := true
    order := order }

/-- Function `generateTemplate` of template-generator.ts. -/
def generateTemplate (component : ComponentAnalysis) : TemplateCreate :=
  let fields0 := mapWithIndex (propToField component.name) 0 component.props
  let fields :=
    if component.hasChildren then
      fields0 ++ [contentField component.name fields0.length]
    else fields0
  let mainSection : TemplateSection :=
    { id := "main"
      name := "Main"
      description := "Main section for " ++ component.name
      fields := fields
      is_repeatable := false
      order := 0 }
  { name := component.name ++ " Template"
    description :=
      if component.description == "" then
        "Template for the " ++ component.name ++ " component"
      else component.description
    type := "Component"
    sections := [mainSection]
    status := "Published"
    is_default := false
    tags := ["component", "shadcn", lowerStr component.name] }

/-- Function `generateTemplateId` of template-generator.ts. -/
def generateTemplateId (componentName : String) : String :=
  "shadcn-" ++ lowerStr componentName ++ "-template"

/-- All fields of a generated template (it has exactly one section). -/
def allFields (t : TemplateCreate) : List TemplateField :=
  t.sections.flatMap (fun s => s.fields)

/-! ## Registry Store (src/src/lib/component-registry.ts)

The in-memory `Map<string, RegisteredComponent>` is modelled as an
association list in insertion order (JavaScript `Map` preserves insertion
order; `set` on an existing key updates the entry in place). The backing
JSON file is modelled as `Option (List RegisteredComponent)` — `none` for
an absent file, otherwise the array `JSON.stringify(Array.from(values))`
would hold. `importedAt` timestamps are threaded as an explicit `now`
argument in place of `new Date().toISOString()`. -/

/-- Structure `RegisteredComponent` of component-registry.ts. -/
structure RegisteredComponent where
  name : String
  path : String
  importedAt : String
  templateId : Option String
  tags : List String
deriving Repr, DecidableEq

/-- The registry singleton's state: the in-memory map plus the backing file. -/
structure RegistryState where
  components : List (String × RegisteredComponent)
  file : Option (List RegisteredComponent)
deriving Repr, DecidableEq

/-- A fresh, never-persisted registry over an absent backing file. -/
def emptyRegistry : RegistryState := { components := [], file := none }

/-- JavaScript `Map.prototype.set`: update in place when the key exists,
otherwise append to the end. -/
def mapSet (m : List (String × RegisteredComponent)) (k : String)
    (v : RegisteredComponent) : List (String × RegisteredComponent) :=
  if m.any (fun p => p.1 == k) then
    m.map (fun p => if p.1 == k then (k, v) else p)
  else m ++ [(k, v)]

/-- Method `saveRegistry`: serialize `Array.from(this.components.values())` to the
backing file (the success path; persistence failures are caught and logged
in the source and change no state). -/
def saveRegistry (m : List (String × RegisteredComponent)) :
    Option (List RegisteredComponent) :=
  some (m.map (fun p => p.2))

/-- Method `registerComponent`: insert or overwrite the entry, stamping the time
and appending the fixed `'shadcn'` tag, then persist the whole map. -/
def registerComponent (st : RegistryState) (name componentPath : String)
    (templateId : Option String) (tags : List String) (now : String) :
    RegistryState :=
  let components := mapSet st.components name
    { name := name
      path := componentPath
      importedAt := now
      templateId := templateId
      tags := tags ++ ["shadcn"] }
  { components := components, file := saveRegistry components }

/-- Method `getComponent`. -/
def getComponent (st : RegistryState) (name : String) :
    Option RegisteredComponent :=
  st.components.lookup name

/-- Method `getAllComponents`. -/
def getAllComponents (st : RegistryState) : List RegisteredComponent :=
  st.components.map (fun p => p.2)

/-- Method `hasComponent`. -/
def hasComponent (st : RegistryState) (name : String) : Bool :=
  st.components.any (fun p => p.1 == name)

/-- Method `removeComponent`: `Map.delete` returns whether the key existed; the
registry is persisted only when something was actually removed. -/
def removeComponent (st : RegistryState) (name : String) :
    Bool × RegistryState :=
  if st.components.any (fun p => p.1 == name) then
    let components := st.components.filter (fun p => !(p.1 == name))
    (true, { components := components, file := saveRegistry components })
  else (false, st)

/-- Method `loadRegistry`: a fresh instance pointed at the backing file reads the
array (absent or unreadable file leaves the map empty) and `set`s each
entry under its `name`. -/
def loadRegistry (file : Option (List RegisteredComponent)) : RegistryState :=
  match file with
  | none => { components := [], file := none }
  | some entries =>
    { components := entries.foldl (fun m e => mapSet m e.name e) []
      file := some entries }

/-! ## Import Orchestrator (src/src/tools/import-and-register.ts)

The three external collaborators — `importComponent` (the Acquirer, an
external CLI invocation), `analyzeComponent` applied to the acquired file
(which throws when the file is unreadable), and
`TemplateApiClient.createTemplate` (which throws on a non-2xx response) —
are deterministic oracles supplied through an `Env`; a thrown error is
`none`. `ImportEffects` counts how often each pipeline step ran, so that
"without invoking the Acquirer" is a statement about the code rather than
about logging. -/

/-- Structure `ImportResult` of import-components.ts. -/
structure ImportResult where
  componentName : String
  success : Bool
  path : Option String := none
  error : Option String := none
deriving Repr, DecidableEq

/-- The slice of `TemplateResponse` the orchestrator and CLI consume. -/
structure TemplateResponse where
  id : String
  name : String
deriving Repr, DecidableEq

/-- External collaborators of one import run. -/
structure Env where
  acquire : String → ImportResult
  analyze : String → Option ComponentAnalysis
  createTemplate : TemplateCreate → Option TemplateResponse

/-- How many times each pipeline step was invoked. -/
structure ImportEffects where
  acquireCalls : Nat
  analyzeCalls : Nat
  generateCalls : Nat
  createCalls : Nat
  registerCalls : Nat
deriving Repr, DecidableEq

/-- Result of one `importAndRegister` run. -/
structure ImportOutcome where
  result : Option TemplateResponse
  registry : RegistryState
  effects : ImportEffects
deriving Repr, DecidableEq

/-- Function `importAndRegister` of import-and-register.ts: acquire, bail out on
`!importResult.success` or a missing/empty `importResult.path`, analyze
(a throw is caught by the surrounding `try` and yields `null`), generate,
create remotely (a throw likewise yields `null`), and only then update the
registry. -/
def importAndRegister (env : Env) (st : RegistryState) (url : String)
    (now : String) : ImportOutcome :=
  if (env.acquire url).success = false then
    ⟨none, st, ⟨1, 0, 0, 0, 0⟩⟩
  else
    match (env.acquire url).path with
    | none => ⟨none, st, ⟨1, 0, 0, 0, 0⟩⟩
    | some p =>
      if p = "" then ⟨none, st, ⟨1, 0, 0, 0, 0⟩⟩
      else
        match env.analyze p with
        | none => ⟨none, st, ⟨1, 1, 0, 0, 0⟩⟩
        | some analysis =>
          match env.createTemplate (generateTemplate analysis) with
          | none => ⟨none, st, ⟨1, 1, 1, 1, 0⟩⟩
          | some resp =>
            ⟨some resp,
             registerComponent st (env.acquire url).componentName p
               (some resp.id) (generateTemplate analysis).tags now,
             ⟨1, 1, 1, 1, 1⟩⟩

/-- Function `importAndRegisterBulk`: sequential `for (const url of urls)` loop,
pushing each item's result and threading the registry singleton. -/
def importAndRegisterBulk (env : Env) (st : RegistryState)
    (urls : List String) (now : String) :
    List (Option TemplateResponse) × RegistryState :=
  match urls with
  | [] => ([], st)
  | u :: rest =>
    let out := importAndRegister env st u now
    let restOut := importAndRegisterBulk env out.registry rest now
    (out.result :: restOut.1, restOut.2)

/-- The CLI's aggregate success count: `results.filter(Boolean).length`. -/
def successCount (results : List (Option TemplateResponse)) : Nat :=
  (results.filter Option.isSome).length

/-- Function `isComponentRegistered` of import-and-register.ts: last URL segment,
stripped of non-letters and capitalized, looked up in the registry. -/
def isComponentRegistered (st : RegistryState) (url : String) : Bool :=
  let parts := splitOnChar '/' url.data
  let lastPart := parts.getLastD []
  if lastPart.isEmpty then false
  else
    let baseName := lastPart.filter Char.isAlpha
    hasComponent st (capitalizeFirst (String.mk baseName))

/-- The `import <url>` command handler of cli.ts: when the derived name is
already registered and `--force` was not given, return without importing;
otherwise run `importAndRegister`. -/
def cliImportCommand (env : Env) (st : RegistryState) (url : String)
    (force : Bool) (now : String) : ImportOutcome :=
  if isComponentRegistered st url && !force then
    ⟨none, st, ⟨0, 0, 0, 0, 0⟩⟩
  else importAndRegister env st url now

/-! ## Source Analyzer (src/src/tools/component-parser.ts)

The parsed syntax tree is modelled by the top-level shapes the analyzer
dispatches on: import declarations, interface declarations, type-alias
declarations, named function declarations, and variable statements whose
initializer is an arrow function or function expression. A member's
`questionToken`, type text and JSDoc comment are captured directly; a JSDoc
comment is `Option String`, with `some ""` behaving like the falsy empty
string where the source tests `if (jsDoc)`. The JSX scan of
`checkForChildren` reduces to one boolean: whether some JSX element's text
contains the literal children interpolation. -/

/-- One `PropertySignature` member of an interface or type literal. -/
structure MemberSig where
  name : String
  optional : Bool
  tyText : Option String
  doc : Option String
deriving Repr, DecidableEq

/-- The type annotation of a function's first parameter. -/
inductive TypeAnnot where
  | literal (members : List MemberSig)
  | ref (name : String)
deriving Repr, DecidableEq

/-- A top-level declaration of the source file. An alias carries its body's
members when it aliases a type literal; the analyzer never reads them. -/
inductive Decl where
  | importDecl (modulePath : String)
  | interfaceDecl (iname : String) (doc : Option String)
      (members : List MemberSig)
  | aliasDecl (aname : String) (doc : Option String)
      (members : Option (List MemberSig))
  | functionDecl (fname : Option String) (doc : Option String)
      (params : List (Option TypeAnnot))
  | varFunDecl (vname : String) (doc : Option String)
      (params : List (Option TypeAnnot))
  | otherDecl
deriving Repr, DecidableEq

/-- A component source file as the analyzer sees it: `baseName` is
`path.basename(filePath, path.extname(filePath))`, and
`jsxMentionsChildren` is whether any JSX element's text contains the
children interpolation token. -/
structure SourceFileModel where
  baseName : String
  decls : List Decl
  jsxMentionsChildren : Bool
deriving Repr, DecidableEq

/-- JavaScript truthiness of an optional JSDoc string. -/
def docTruthy : Option String → Bool
  | some s => s != ""
  | none => false

/-- One extracted property; the inline-type-literal branches do not read
member JSDoc, the interface branches do. -/
def memberToProp (withDoc : Bool) (m : MemberSig) : ComponentProp :=
  { name := m.name
    type := m.tyText.getD "any"
    required := !m.optional
    description := if withDoc then m.doc else none }

/-- First pass of `extractComponentInfo`: every interface whose name
contains `'Props'` contributes its members; when the name ends in
`'Props'` and the remaining prefix is non-empty it becomes the component
name; a truthy JSDoc becomes the description. -/
def firstPassStep (a : ComponentAnalysis) (d : Decl) : ComponentAnalysis :=
  match d with
  | .interfaceDecl iname doc members =>
    if strIncludes iname "Props" then
      let a1 :=
        if strEndsWith iname "Props" then
          let componentName := replaceFirstStr iname "Props"
          if componentName != "" then { a with name := componentName } else a
        else a
      let a2 := if docTruthy doc then { a1 with description := doc.getD "" }
        else a1
      { a2 with props := a2.props ++ members.map (memberToProp true) }
    else a
  | _ => a

/-- Resolution of a bare parameter-type name in the named-function branch:
the file's interfaces are matched against `typeName.replace('Props', '')`,
and each match contributes its members. -/
def resolveRefFn (decls : List Decl) (typeName : String) : List ComponentProp :=
  decls.flatMap (fun d =>
    match d with
    | .interfaceDecl iname _ members =>
      if iname == replaceFirstStr typeName "Props" then
        members.map (memberToProp true)
      else []
    | _ => [])

/-- Resolution of a bare parameter-type name in the variable-bound-function
branch: interfaces and type aliases are matched against the exact name, but
members are read only from interfaces. -/
def resolveRefVar (decls : List Decl) (typeName : String) :
    List ComponentProp :=
  decls.flatMap (fun d =>
    match d with
    | .interfaceDecl iname _ members =>
      if iname == typeName then members.map (memberToProp true) else []
    | _ => [])

/-- Function `extractFunctionComponentProps` applied to one top-level node: a named
function or a variable bound to a function overwrites the component name,
a truthy JSDoc overwrites the description, and the first parameter's type
(inline literal, or bare name resolved per branch) contributes props. -/
def fallbackStep (decls : List Decl) (a : ComponentAnalysis) (d : Decl) :
    ComponentAnalysis :=
  match d with
  | .functionDecl fname doc params =>
    match fname with
    | none => a
    | some fn =>
      let a1 := { a with name := fn }
      let a2 := if docTruthy doc then { a1 with description := doc.getD "" }
        else a1
      match params with
      | [] => a2
      | p0 :: _ =>
        match p0 with
        | some (.literal ms) =>
          { a2 with props := a2.props ++ ms.map (memberToProp false) }
        | some (.ref typeName) =>
          { a2 with props := a2.props ++ resolveRefFn decls typeName }
        | none => a2
  | .varFunDecl vn doc params =>
    let a1 := { a with name := vn }
    let a2 := if docTruthy doc then { a1 with description := doc.getD "" }
      else a1
    match params with
    | [] => a2
    | p0 :: _ =>
      match p0 with
      | some (.literal ms) =>
        { a2 with props := a2.props ++ ms.map (memberToProp false) }
      | some (.ref typeName) =>
        { a2 with props := a2.props ++ resolveRefVar decls typeName }
      | none => a2
  | _ => a

/-- Function `checkForChildren`: a prop named `children` or whose type text contains
`ReactNode`/`ReactElement`, or a JSX children interpolation in the file. -/
def checkForChildren (f : SourceFileModel) (a : ComponentAnalysis) :
    ComponentAnalysis :=
  let fromProps := a.props.any (fun p =>
    p.name == "children" || strIncludes p.type "ReactNode"
      || strIncludes p.type "ReactElement")
  { a with hasChildren := fromProps || f.jsxMentionsChildren }

/-- Function `analyzeComponent`: initialize from the file name, collect imports,
run the interface pass, fall back to function-like declarations only when
no props were found, then detect nested content. -/
def analyzeComponent (f : SourceFileModel) : ComponentAnalysis :=
  let a0 : ComponentAnalysis :=
    { name := f.baseName
      props := []
      hasChildren := false
      imports := f.decls.filterMap (fun d =>
        match d with
        | .importDecl m => some m
        | _ => none)
      description := "" }
  let a1 := f.decls.foldl firstPassStep a0
  let a2 :=
    if a1.props.isEmpty then f.decls.foldl (fallbackStep f.decls) a1 else a1
  checkForChildren f a2

/-! ## Helper lemmas -/

theorem mapWithIndex_length (f : Nat → α → β) (j : Nat) (l : List α) :
    (mapWithIndex f j l).length = l.length := by
  induction l generalizing j with
  | nil => rfl
  | cons a as ih => simp [mapWithIndex, ih]

theorem mapWithIndex_getElem? (f : Nat → α → β) (j n : Nat) (l : List α) :
    (mapWithIndex f j l)[n]? = l[n]?.map (fun a => f (j + n) a) := by
  induction l generalizing j n with
  | nil => simp [mapWithIndex]
  | cons a as ih =>
    cases n with
    | zero => simp [mapWithIndex]
    | succ n =>
      have harith : j + 1 + n = j + (n + 1) := by omega
      simp [mapWithIndex, ih (j + 1) n, harith]

/-- The field list of a generated template, explicitly. -/
theorem allFields_generateTemplate (c : ComponentAnalysis) :
    allFields (generateTemplate c) =
      if c.hasChildren then
        mapWithIndex (propToField c.name) 0 c.props
          ++ [contentField c.name c.props.length]
      else mapWithIndex (propToField c.name) 0 c.props := by
  cases hc : c.hasChildren <;>
    simp [allFields, generateTemplate, hc, mapWithIndex_length]

/-! ## Claim C4 -/

/-- C4: the claim says every raw type string listed in the mapping table is
mapped as documented, in particular `Array<string>` to `MultiSelect` and
`Record<string, any>` to `JSON`. The non-generic keys do behave as
documented and unknown strings fall back to `Text`, but the generic
suffixes are stripped BEFORE the table lookup, so the inputs
`Array<string>` and `Record<string, any>` become `Array` and `Record`,
miss the table, and map to `Text`: those two table entries are
unreachable. -/
theorem claim4_type_table_eval :
    mapPropTypeToFieldType "string" = "Text" ∧
    mapPropTypeToFieldType "number" = "Number" ∧
    mapPropTypeToFieldType "boolean" = "Boolean" ∧
    mapPropTypeToFieldType "Date" = "Date" ∧
    mapPropTypeToFieldType "ReactNode" = "RichText" ∧
    mapPropTypeToFieldType "ReactElement" = "RichText" ∧
    mapPropTypeToFieldType "JSX.Element" = "RichText" ∧
    mapPropTypeToFieldType "React.ReactNode" = "RichText" ∧
    mapPropTypeToFieldType "React.ReactElement" = "RichText" ∧
    mapPropTypeToFieldType "React.JSX.Element" = "RichText" ∧
    mapPropTypeToFieldType "string[]" = "MultiSelect" ∧
    mapPropTypeToFieldType "object" = "JSON" ∧
    mapPropTypeToFieldType "any" = "Text" ∧
    mapPropTypeToFieldType "SomeUnknownWidget" = "Text" ∧
    mapPropTypeToFieldType "string | number" = "Text" ∧
    mapPropTypeToFieldType "Promise<string>" = "Text" ∧
    mapPropTypeToFieldType "Array<string>" = "Text" ∧
    mapPropTypeToFieldType "Record<string, any>" = "Text" := by decide

/-! ## Claim C2 -/

/-- A component with one property named `heroImage` of declared type
`string`. -/
def heroImageAnalysis : ComponentAnalysis :=
  { name := "Hero"
    props := [{ name := "heroImage", type := "string", required := true }]
    hasChildren := false
    imports := [] }

/-- C2 fails on the code: the image/URL overrides inspect the declared
TYPE text, not the property name, so a property named `heroImage` of type
`string` yields a field of type `Text`, not `Image`. -/
theorem claim2_counterexample :
    (allFields (generateTemplate heroImageAnalysis)).map (fun f => f.type)
        = ["Text"] ∧
    ((allFields (generateTemplate heroImageAnalysis)).all
        (fun f => f.type != "Image")) = true := by decide

/-- C2 amended: the naming-hint overrides short-circuit the table on the
raw declared TYPE text (lower-cased, after stripping generics and union
siblings): an image-related substring forces `Image`, otherwise a
link-related substring forces `URL`; the property name plays no role in
field-type resolution. -/
theorem claim2_amended_type_hints :
    (∀ propType : String,
      (strIncludes (lowerStr (baseTypeOf propType)) "image"
        || strIncludes (lowerStr (baseTypeOf propType)) "img"
        || strIncludes (lowerStr (baseTypeOf propType)) "picture") = true →
      mapPropTypeToFieldType propType = "Image") ∧
    (∀ propType : String,
      (strIncludes (lowerStr (baseTypeOf propType)) "image"
        || strIncludes (lowerStr (baseTypeOf propType)) "img"
        || strIncludes (lowerStr (baseTypeOf propType)) "picture") = false →
      (strIncludes (lowerStr (baseTypeOf propType)) "url"
        || strIncludes (lowerStr (baseTypeOf propType)) "link"
        || strIncludes (lowerStr (baseTypeOf propType)) "href") = true →
      mapPropTypeToFieldType propType = "URL") ∧
    (∀ (name1 name2 ty componentName : String) (r1 r2 : Bool)
       (d1 d2 : Option String) (i j : Nat),
      (propToField componentName i
        { name := name1, type := ty, required := r1, description := d1 }).type
      = (propToField componentName j
        { name := name2, type := ty, required := r2, description := d2 }).type) := by
  refine ⟨?_, ?_, ?_⟩
  · intro propType h
    simp only [mapPropTypeToFieldType]
    rw [h]
    simp
  · intro propType h1 h2
    simp only [mapPropTypeToFieldType]
    rw [h1, h2]
    simp
  · intro name1 name2 ty componentName r1 r2 d1 d2 i j
    simp [propToField]

/-- Witness for the amended C2 at concrete inputs. -/
theorem claim2_amended_witness :
    mapPropTypeToFieldType "ImageProps" = "Image" ∧
    mapPropTypeToFieldType "LinkTarget" = "URL" :=
  ⟨claim2_amended_type_hints.1 "ImageProps" (by decide),
   claim2_amended_type_hints.2.1 "LinkTarget" (by decide) (by decide)⟩

/-! ## Claim C7 -/

/-- A component with no declared properties that accepts nested content. -/
def nestedOnlyAnalysis : ComponentAnalysis :=
  { name := "Box", props := [], hasChildren := true, imports := [] }

/-- C7 fails on the code: the synthetic `content` field appended for
nested content carries `is_searchable := true` although it is named
`Content`, not `title`, `heading` or `text`. -/
theorem claim7_counterexample :
    (allFields (generateTemplate nestedOnlyAnalysis)).map
        (fun f => (f.id, f.name, f.is_searchable))
      = [("content", "Content", true)] := by decide

/-- C7 amended: in a generated template, the field at position `i` is
searchable exactly when it comes from a property literally named `title`,
`heading` or `text`, OR it is the synthetic content field appended (last,
at position `props.length`) when the component accepts nested content —
and that synthetic field is always searchable. -/
theorem claim7_amended_searchable_characterization
    (c : ComponentAnalysis) (i : Nat) (f : TemplateField)
    (h : (allFields (generateTemplate c))[i]? = some f) :
    f.is_searchable = true ↔
      ((∃ p, c.props[i]? = some p ∧
        (p.name = "title" ∨ p.name = "heading" ∨ p.name = "text")) ∨
      (c.hasChildren = true ∧ i = c.props.length)) := by
  rw [allFields_generateTemplate] at h
  cases hc : c.hasChildren with
  | false =>
    rw [hc] at h
    simp only [Bool.false_eq_true, if_false] at h
    rw [mapWithIndex_getElem?] at h
    cases hp : c.props[i]? with
    | none => rw [hp] at h; simp at h
    | some p =>
      rw [hp] at h
      simp only [Option.map_some'] at h
      cases h
      simp [propToField, hp, hc]
      tauto
  | true =>
    rw [hc] at h
    rw [if_pos rfl] at h
    by_cases hi : i < c.props.length
    · rw [List.getElem?_append_left (by rw [mapWithIndex_length]; exact hi)] at h
      rw [mapWithIndex_getElem?] at h
      cases hp : c.props[i]? with
      | none =>
        rw [hp] at h; simp at h
      | some p =>
        rw [hp] at h
        simp only [Option.map_some'] at h
        cases h
        have hne : ¬ i = c.props.length := by omega
        simp [propToField, hp, hne]
        tauto
    · rw [List.getElem?_append_right (by rw [mapWithIndex_length]; omega)] at h
      rw [mapWithIndex_length] at h
      cases hdiff : i - c.props.length with
      | zero =>
        rw [hdiff] at h
        simp only [List.getElem?_cons_zero] at h
        cases h
        have hip : c.props[i]? = none := by
          rw [List.getElem?_eq_none]
          omega
        have hieq : i = c.props.length := by omega
        simp [contentField, hip, hieq]
      | succ k =>
        rw [hdiff] at h
        simp at h

/-- A component with a `title` property and nested content. -/
def titleAnalysis : ComponentAnalysis :=
  { name := "Box"
    props := [{ name := "title", type := "string", required := true }]
    hasChildren := true
    imports := [] }

/-- Witness for the amended C7 at a concrete template. -/
theorem claim7_amended_witness :
    (propToField "Box" 0
        { name := "title", type := "string", required := true }).is_searchable
        = true ↔
      ((∃ p, titleAnalysis.props[0]? = some p ∧
        (p.name = "title" ∨ p.name = "heading" ∨ p.name = "text")) ∨
      (titleAnalysis.hasChildren = true ∧ 0 = titleAnalysis.props.length)) :=
  claim7_amended_searchable_characterization titleAnalysis 0 _ (by decide)

/-! ## Claim C5 -/

/-- The name a top-level declaration binds, if any. -/
def declName : Decl → Option String
  | .interfaceDecl n _ _ => some n
  | .aliasDecl n _ _ => some n
  | .functionDecl n _ _ => n
  | .varFunDecl n _ _ => some n
  | _ => none

/-- A single member used in the C5 scenarios. -/
def labelMember : MemberSig :=
  { name := "label", optional := false, tyText := some "string", doc := none }

/-- A file with `interface Card` and `function Card2(props: CardProps)`:
no top-level declaration is named `CardProps`. -/
def card2File : SourceFileModel :=
  { baseName := "card2"
    decls := [.interfaceDecl "Card" none [labelMember],
              .functionDecl (some "Card2") none [some (.ref "CardProps")]]
    jsxMentionsChildren := false }

/-- C5 fails on the code: in the named-function branch the bare parameter
type `CardProps` is matched against interface names with the first
`'Props'` substring removed, so the analyzer reads the props of the
interface named `Card` even though no declaration named `CardProps`
exists in the file (exact-name search would have found nothing). -/
theorem claim5_counterexample :
    (analyzeComponent card2File).props
        = [{ name := "label", type := "string", required := true,
             description := none }] ∧
    (card2File.decls.all (fun d => declName d != some "CardProps")) = true := by
  decide

/-- C5 amended: when the fallback inspects a function-like declaration
whose first parameter's type is a bare name, the named-function branch
resolves it by matching the file's INTERFACES against the bare name with
its first `'Props'` substring removed, while the variable-bound-function
branch matches interfaces (and type aliases) against the exact bare name
but reads members only from interfaces — a matching type alias
contributes nothing. -/
theorem claim5_amended_bare_name_resolution :
    (∀ (iname : String) (idoc : Option String) (ms : List MemberSig)
       (fname : String) (fdoc : Option String) (tname bn : String)
       (jsx : Bool),
      strIncludes iname "Props" = false →
      (analyzeComponent
        { baseName := bn
          decls := [.interfaceDecl iname idoc ms,
                    .functionDecl (some fname) fdoc [some (.ref tname)]]
          jsxMentionsChildren := jsx }).props
        = (if iname == replaceFirstStr tname "Props"
           then ms.map (memberToProp true) else [])) ∧
    (∀ (tname : String) (adoc : Option String) (ams : List MemberSig)
       (vname : String) (vdoc : Option String) (bn : String) (jsx : Bool),
      (analyzeComponent
        { baseName := bn
          decls := [.aliasDecl tname adoc (some ams),
                    .varFunDecl vname vdoc [some (.ref tname)]]
          jsxMentionsChildren := jsx }).props = []) ∧
    (∀ (iname : String) (idoc : Option String) (ms : List MemberSig)
       (vname : String) (vdoc : Option String) (tname bn : String)
       (jsx : Bool),
      strIncludes iname "Props" = false →
      (analyzeComponent
        { baseName := bn
          decls := [.interfaceDecl iname idoc ms,
                    .varFunDecl vname vdoc [some (.ref tname)]]
          jsxMentionsChildren := jsx }).props
        = (if iname == tname then ms.map (memberToProp true) else [])) := by
  refine ⟨?_, ?_, ?_⟩
  · intro iname idoc ms fname fdoc tname bn jsx hno
    cases hdoc : docTruthy fdoc <;>
      simp [analyzeComponent, firstPassStep, fallbackStep, resolveRefFn,
        checkForChildren, hno, hdoc]
  · intro tname adoc ams vname vdoc bn jsx
    cases hdoc : docTruthy vdoc <;>
      simp [analyzeComponent, firstPassStep, fallbackStep, resolveRefVar,
        checkForChildren, hdoc]
  · intro iname idoc ms vname vdoc tname bn jsx hno
    cases hdoc : docTruthy vdoc <;>
      simp [analyzeComponent, firstPassStep, fallbackStep, resolveRefVar,
        checkForChildren, hno, hdoc]

/-- Witness for the amended C5 at the concrete `Card`/`CardProps` file. -/
theorem claim5_amended_witness :
    (analyzeComponent card2File).props
      = (if "Card" == replaceFirstStr "CardProps" "Props"
         then [labelMember].map (memberToProp true) else []) := by
  have h := claim5_amended_bare_name_resolution.1 "Card" none [labelMember]
    "Card2" none "CardProps" "card2" false (by decide)
  simpa [card2File, labelMember] using h

/-! ## Orchestrator lemmas shared between claims -/

/-- A run whose result is `null` leaves the registry exactly as it was. -/
theorem importAndRegister_none_frame (env : Env) (st : RegistryState)
    (url now : String) :
    (importAndRegister env st url now).result = none →
    (importAndRegister env st url now).registry = st := by
  unfold importAndRegister
  repeat' split
  all_goals simp_all

/-- Every run invokes the Acquirer exactly once, whatever the registry
holds. -/
theorem importAndRegister_acquires_once (env : Env) (st : RegistryState)
    (url now : String) :
    (importAndRegister env st url now).effects.acquireCalls = 1 := by
  unfold importAndRegister
  repeat' split
  all_goals rfl

/-- The returned result does not depend on the registry state. -/
theorem importAndRegister_result_state_indep (env : Env) (url now : String)
    (st st' : RegistryState) :
    (importAndRegister env st url now).result
      = (importAndRegister env st' url now).result := by
  unfold importAndRegister
  repeat' split
  all_goals simp_all

/-- A successful run went through the whole pipeline, and its registry is
the old one with the acquired component registered under the remote id and
the generated tags. -/
theorem importAndRegister_some_shape (env : Env) (st : RegistryState)
    (url now : String) (resp : TemplateResponse)
    (h : (importAndRegister env st url now).result = some resp) :
    ∃ p a, (env.acquire url).path = some p ∧ env.analyze p = some a ∧
      (importAndRegister env st url now).registry
        = registerComponent st (env.acquire url).componentName p
            (some resp.id) (generateTemplate a).tags now := by
  by_cases hs : (env.acquire url).success = false
  · simp [importAndRegister, hs] at h
  · cases hp : (env.acquire url).path with
    | none => simp [importAndRegister, hs, hp] at h
    | some p =>
      by_cases hpe : p = ""
      · simp [importAndRegister, hs, hp, hpe] at h
      · cases ha : env.analyze p with
        | none => simp [importAndRegister, hs, hp, hpe, ha] at h
        | some a =>
          cases hc : env.createTemplate (generateTemplate a) with
          | none => simp [importAndRegister, hs, hp, hpe, ha, hc] at h
          | some r =>
            have hr : r = resp := by
              simp [importAndRegister, hs, hp, hpe, ha, hc] at h
              exact h
            refine ⟨p, a, rfl, ha, ?_⟩
            subst hr
            simp [importAndRegister, hs, hp, hpe, ha, hc]


/-! ## Claim C1 -/

/-- External collaborators that succeed on every step and acquire a
component named `Hero`. -/
def envHappyHero : Env :=
  { acquire := fun _ =>
      { componentName := "Hero", success := true,
        path := some "src/components/hero1.tsx" }
    analyze := fun _ =>
      some { name := "Hero", props := [], hasChildren := false, imports := [] }
    createTemplate := fun _ => some { id := "tpl-1", name := "Hero Template" } }

/-- The identifier whose derived component name is `Hero`. -/
def heroUrl : String := "https://www.shadcnblocks.com/r/hero1"

/-- A registry that already holds `Hero`. -/
def stHeroRegistered : RegistryState :=
  registerComponent emptyRegistry "Hero" "src/components/hero1.tsx"
    (some "tpl-0") [] "t0"

/-- C1 fails on the code: `importAndRegister` takes no force flag and never
consults the registry. With `Hero` already registered (and the derived name
matching), a call still invokes the Acquirer, and so does a second call on
the resulting state — acquisition happens once per call, not once in
total. -/
theorem claim1_counterexample :
    isComponentRegistered stHeroRegistered heroUrl = true ∧
    hasComponent stHeroRegistered "Hero" = true ∧
    (importAndRegister envHappyHero stHeroRegistered heroUrl "t1"
      ).effects.acquireCalls = 1 ∧
    (importAndRegister envHappyHero
        (importAndRegister envHappyHero stHeroRegistered heroUrl "t1").registry
        heroUrl "t2").effects.acquireCalls = 1 := by decide

/-- C1 amended: the idempotent short-circuit lives in the CLI `import`
command, not in `importAndRegister`. When the name derived from the
identifier is already registered and force is false, the CLI command
returns with no result, unchanged registry and zero pipeline invocations
(it does not return the existing entry); `importAndRegister` itself
invokes the Acquirer exactly once on every call, whatever the registry
holds. -/
theorem claim1_amended_cli_short_circuit (env : Env) (st : RegistryState)
    (url now : String) (h : isComponentRegistered st url = true) :
    cliImportCommand env st url false now
      = ⟨none, st, ⟨0, 0, 0, 0, 0⟩⟩ ∧
    (∀ (st' : RegistryState) (now' : String),
      (cliImportCommand env st' url true now').effects.acquireCalls = 1 ∧
      (importAndRegister env st' url now').effects.acquireCalls = 1) := by
  constructor
  · simp [cliImportCommand, h]
  · intro st' now'
    constructor
    · simp [cliImportCommand, importAndRegister_acquires_once]
    · exact importAndRegister_acquires_once env st' url now'

/-- Witness for the amended C1 at the concrete registered `Hero` state. -/
theorem claim1_amended_witness :
    cliImportCommand envHappyHero stHeroRegistered heroUrl false "t1"
      = ⟨none, stHeroRegistered, ⟨0, 0, 0, 0, 0⟩⟩ :=
  (claim1_amended_cli_short_circuit envHappyHero stHeroRegistered heroUrl
    "t1" (by decide)).1

/-! ## Claim C3 -/

/-- C3: a failed acquisition, analysis or remote registration yields a
`null` result, and a `null` result leaves the Registry Store exactly as it
was — no partial entry is ever written by a failed import. (Generation,
`generateTemplate`, is a total pure function and cannot fail.) -/
theorem claim3_failed_import_leaves_registry_unchanged (env : Env)
    (st : RegistryState) (url now : String) :
    ((importAndRegister env st url now).result = none →
      (importAndRegister env st url now).registry = st) ∧
    ((env.acquire url).success = false →
      (importAndRegister env st url now).result = none) ∧
    (∀ p, (env.acquire url).path = some p → env.analyze p = none →
      (importAndRegister env st url now).result = none) ∧
    (∀ p a, (env.acquire url).path = some p → env.analyze p = some a →
      env.createTemplate (generateTemplate a) = none →
      (importAndRegister env st url now).result = none) := by
  refine ⟨importAndRegister_none_frame env st url now, ?_, ?_, ?_⟩
  · intro hs
    simp [importAndRegister, hs]
  · intro p hp ha
    unfold importAndRegister
    repeat' split
    all_goals simp_all
  · intro p a hp ha hc
    unfold importAndRegister
    repeat' split
    all_goals simp_all

/-- External collaborators whose acquisition step always fails. -/
def envAcquireFail : Env :=
  { acquire := fun url =>
      { componentName := "Hero", success := false,
        error := some ("Failed to import component from " ++ url) }
    analyze := fun _ => none
    createTemplate := fun _ => none }

/-- A registry holding one prior entry. -/
def stPrior : RegistryState :=
  registerComponent emptyRegistry "Other" "p0" none [] "t0"

/-- Witness for C3: a failing acquisition yields `null` and the prior
registry state survives untouched. -/
theorem claim3_witness :
    (importAndRegister envAcquireFail stPrior heroUrl "t1").result = none ∧
    (importAndRegister envAcquireFail stPrior heroUrl "t1").registry
      = stPrior := by
  have h := claim3_failed_import_leaves_registry_unchanged envAcquireFail
    stPrior heroUrl "t1"
  have hres := h.2.1 (by decide)
  exact ⟨hres, h.1 hres⟩

/-! ## Claim C6 -/

/-- The three bulk identifiers of the batch-isolation scenario. -/
def bulkUrl1 : String := "https://www.shadcnblocks.com/r/hero1"

def bulkUrl2 : String := "https://www.shadcnblocks.com/r/features1"

def bulkUrl3 : String := "https://www.shadcnblocks.com/r/cta1"

/-- External collaborators for which only the second identifier's
acquisition fails. -/
def envSecondFails : Env :=
  { acquire := fun u =>
      if u == bulkUrl2 then
        { componentName := "Features", success := false,
          error := some "fetch failed" }
      else if u == bulkUrl1 then
        { componentName := "Hero", success := true,
          path := some "src/components/hero1.tsx" }
      else
        { componentName := "Cta", success := true,
          path := some "src/components/cta1.tsx" }
    analyze := fun p =>
      some { name := p, props := [], hasChildren := false, imports := [] }
    createTemplate := fun t => some { id := "tpl-" ++ t.name, name := t.name } }

/-- C6: the bulk import processes identifiers sequentially in input order,
one result slot per input — since each slot's result is independent of the
registry state threaded between items, the output is exactly the map of
the single-import result over the inputs (so failures are isolated and
length and order are preserved); on the concrete three-identifier scenario
where only the second acquisition fails, the slots are
non-null/null/non-null and the aggregate success count is 2. -/
theorem claim6_bulk_sequential_isolated :
    (∀ (env : Env) (st : RegistryState) (urls : List String) (now : String),
      (importAndRegisterBulk env st urls now).1
        = urls.map (fun u => (importAndRegister env st u now).result)) ∧
    ((importAndRegisterBulk envSecondFails emptyRegistry
        [bulkUrl1, bulkUrl2, bulkUrl3] "t").1.map Option.isSome
        = [true, false, true] ∧
      successCount (importAndRegisterBulk envSecondFails emptyRegistry
        [bulkUrl1, bulkUrl2, bulkUrl3] "t").1 = 2) := by
  constructor
  · intro env st urls now
    induction urls generalizing st with
    | nil => rfl
    | cons u rest ih =>
      have hfun :
          (fun u' => (importAndRegister env
              (importAndRegister env st u now).registry u' now).result)
          = (fun u' => (importAndRegister env st u' now).result) :=
        funext (fun u' => importAndRegister_result_state_indep env u' now
          (importAndRegister env st u now).registry st)
      simp only [importAndRegisterBulk, List.map_cons]
      rw [ih ((importAndRegister env st u now).registry), hfun]
  · exact ⟨by decide, by decide⟩

/-! ## Registry lemmas shared between claims -/

theorem beq_comm_false (a b : String) (h : (a == b) = false) :
    (b == a) = false := by
  rw [beq_eq_false_iff_ne] at h ⊢
  exact fun e => h e.symm

theorem lookup_map_update (m : List (String × RegisteredComponent))
    (k : String) (v : RegisteredComponent)
    (h : m.any (fun p => p.1 == k) = true) :
    (m.map (fun p => if p.1 == k then (k, v) else p)).lookup k = some v := by
  induction m with
  | nil => simp at h
  | cons hd t ih =>
    obtain ⟨k1, v1⟩ := hd
    simp only [List.map_cons]
    by_cases hk : (k1 == k) = true
    · rw [if_pos hk]
      simp [List.lookup]
    · have hk' : (k1 == k) = false := by
        cases hb : k1 == k
        · rfl
        · exact absurd hb hk
      have hk2 : (k == k1) = false := beq_comm_false _ _ hk'
      rw [if_neg hk]
      simp only [List.any_cons, hk', Bool.false_or] at h
      simp only [List.lookup, hk2]
      exact ih h

theorem lookup_append_of_not_mem (m : List (String × RegisteredComponent))
    (k : String) (v : RegisteredComponent)
    (h : m.any (fun p => p.1 == k) = false) :
    (m ++ [(k, v)]).lookup k = some v := by
  induction m with
  | nil => simp [List.lookup]
  | cons hd t ih =>
    obtain ⟨k1, v1⟩ := hd
    simp only [List.any_cons, Bool.or_eq_false_iff] at h
    have hk2 : (k == k1) = false := beq_comm_false _ _ h.1
    simp only [List.cons_append, List.lookup, hk2]
    exact ih h.2

/-- Setting then getting the same key yields the new value. -/
theorem lookup_mapSet_self (m : List (String × RegisteredComponent))
    (k : String) (v : RegisteredComponent) :
    (mapSet m k v).lookup k = some v := by
  unfold mapSet
  by_cases h : m.any (fun p => p.1 == k) = true
  · rw [if_pos h]
    exact lookup_map_update m k v h
  · have h' : m.any (fun p => p.1 == k) = false := by
      cases hb : m.any (fun p => p.1 == k)
      · rfl
      · exact absurd hb h
    rw [if_neg h]
    exact lookup_append_of_not_mem m k v h'

/-- Reading back the entry just registered. -/
theorem getComponent_registerComponent_self (st : RegistryState)
    (name cpath : String) (tid : Option String) (tags : List String)
    (now : String) :
    getComponent (registerComponent st name cpath tid tags now) name
      = some { name := name, path := cpath, importedAt := now,
               templateId := tid, tags := tags ++ ["shadcn"] } := by
  unfold getComponent registerComponent
  exact lookup_mapSet_self _ _ _

/-! ## Claim C9 -/

/-- C9: `registerComponent` always stores the supplied tags with `'shadcn'`
appended — even when `'shadcn'` is already among them — and since a
successful import passes the generated template's tags (which already
contain `'shadcn'`), the entry written by a successful `importAndRegister`
carries the tag `'shadcn'` at least twice. -/
theorem claim9_shadcn_tag_appended :
    (∀ (st : RegistryState) (name cpath : String) (tid : Option String)
       (tags : List String) (now : String),
      getComponent (registerComponent st name cpath tid tags now) name
        = some { name := name, path := cpath, importedAt := now,
                 templateId := tid, tags := tags ++ ["shadcn"] }) ∧
    (∀ (env : Env) (st : RegistryState) (url now : String)
       (resp : TemplateResponse),
      (importAndRegister env st url now).result = some resp →
      ∃ e, getComponent (importAndRegister env st url now).registry
            (env.acquire url).componentName = some e ∧
        2 ≤ e.tags.count "shadcn") := by
  constructor
  · exact getComponent_registerComponent_self
  · intro env st url now resp hres
    obtain ⟨p, a, hp, ha, hreg⟩ :=
      importAndRegister_some_shape env st url now resp hres
    rw [hreg, getComponent_registerComponent_self]
    refine ⟨_, rfl, ?_⟩
    have htags : (generateTemplate a).tags
        = ["component", "shadcn", lowerStr a.name] := by
      simp [generateTemplate]
    rw [htags]
    by_cases hl : (lowerStr a.name == "shadcn") = true <;>
      simp [List.count_cons, List.count_append, hl]

/-- Witness for C9: a duplicate `'shadcn'` in the supplied tags is kept,
and the entry written by a concrete successful import counts `'shadcn'`
twice. -/
theorem claim9_witness :
    getComponent
        (registerComponent emptyRegistry "Hero" "p" (some "t")
          ["shadcn"] "now") "Hero"
      = some { name := "Hero", path := "p", importedAt := "now",
               templateId := some "t", tags := ["shadcn"] ++ ["shadcn"] } ∧
    (∃ e, getComponent
        (importAndRegister envHappyHero emptyRegistry heroUrl "t1").registry
        (envHappyHero.acquire heroUrl).componentName = some e ∧
      2 ≤ e.tags.count "shadcn") :=
  ⟨claim9_shadcn_tag_appended.1 emptyRegistry "Hero" "p" (some "t")
      ["shadcn"] "now",
   claim9_shadcn_tag_appended.2 envHappyHero emptyRegistry heroUrl "t1"
      { id := "tpl-1", name := "Hero Template" } (by decide)⟩

/-! ## Claim C8 -/

/-- Three successive registrations into a fresh store. -/
def reg3 (a pa : String) (ta : Option String) (ga : List String) (na : String)
    (b pb : String) (tb : Option String) (gb : List String) (nb : String)
    (c pc : String) (tc : Option String) (gc : List String) (nc : String) :
    RegistryState :=
  registerComponent (registerComponent (registerComponent emptyRegistry
    a pa ta ga na) b pb tb gb nb) c pc tc gc nc

/-- C8: registering three distinct component names and then loading a
fresh store from the same backing file recovers exactly those three
entries with identical field values — `getAll` has length 3 and `get`
agrees with the original store (and with the stored values) on each of
the three names. -/
theorem claim8_registry_roundtrip
    (a b c pa pb pc : String) (ta tb tc : Option String)
    (ga gb gc : List String) (na nb nc : String)
    (hab : a ≠ b) (hac : a ≠ c) (hbc : b ≠ c) :
    (getAllComponents (loadRegistry
      (reg3 a pa ta ga na b pb tb gb nb c pc tc gc nc).file)).length = 3 ∧
    getComponent (loadRegistry
        (reg3 a pa ta ga na b pb tb gb nb c pc tc gc nc).file) a
      = getComponent (reg3 a pa ta ga na b pb tb gb nb c pc tc gc nc) a ∧
    getComponent (loadRegistry
        (reg3 a pa ta ga na b pb tb gb nb c pc tc gc nc).file) b
      = getComponent (reg3 a pa ta ga na b pb tb gb nb c pc tc gc nc) b ∧
    getComponent (loadRegistry
        (reg3 a pa ta ga na b pb tb gb nb c pc tc gc nc).file) c
      = getComponent (reg3 a pa ta ga na b pb tb gb nb c pc tc gc nc) c ∧
    getComponent (loadRegistry
        (reg3 a pa ta ga na b pb tb gb nb c pc tc gc nc).file) a
      = some { name := a, path := pa, importedAt := na, templateId := ta,
               tags := ga ++ ["shadcn"] } ∧
    getComponent (loadRegistry
        (reg3 a pa ta ga na b pb tb gb nb c pc tc gc nc).file) b
      = some { name := b, path := pb, importedAt := nb, templateId := tb,
               tags := gb ++ ["shadcn"] } ∧
    getComponent (loadRegistry
        (reg3 a pa ta ga na b pb tb gb nb c pc tc gc nc).file) c
      = some { name := c, path := pc, importedAt := nc, templateId := tc,
               tags := gc ++ ["shadcn"] } := by
  have hab' : (a == b) = false := beq_eq_false_iff_ne.mpr hab
  have hac' : (a == c) = false := beq_eq_false_iff_ne.mpr hac
  have hbc' : (b == c) = false := beq_eq_false_iff_ne.mpr hbc
  have hba' := beq_comm_false _ _ hab'
  have hca' := beq_comm_false _ _ hac'
  have hcb' := beq_comm_false _ _ hbc'
  simp [reg3, registerComponent, emptyRegistry, mapSet, saveRegistry,
    loadRegistry, getComponent, getAllComponents, List.lookup, List.foldl,
    hab', hac', hbc', hba', hca', hcb']

/-- Witness for C8 at three concrete distinct names. -/
theorem claim8_witness :
    (getAllComponents (loadRegistry
      (reg3 "Hero" "p1" (some "t1") ["x"] "n1"
            "Card" "p2" (some "t2") ["y"] "n2"
            "Badge" "p3" (some "t3") ["z"] "n3").file)).length = 3 ∧
    getComponent (loadRegistry
        (reg3 "Hero" "p1" (some "t1") ["x"] "n1"
              "Card" "p2" (some "t2") ["y"] "n2"
              "Badge" "p3" (some "t3") ["z"] "n3").file) "Card"
      = some { name := "Card", path := "p2", importedAt := "n2",
               templateId := some "t2", tags := ["y"] ++ ["shadcn"] } := by
  have h := claim8_registry_roundtrip "Hero" "Card" "Badge" "p1" "p2" "p3"
    (some "t1") (some "t2") (some "t3") ["x"] ["y"] ["z"] "n1" "n2" "n3"
    (by decide) (by decide) (by decide)
  exact ⟨h.1, h.2.2.2.2.2.1⟩

/-! ## Claim C10 -/

theorem lookup_filter_ne (l : List (String × RegisteredComponent))
    (k m : String) (hne : m ≠ k) :
    (l.filter (fun p => !(p.1 == k))).lookup m = l.lookup m := by
  induction l with
  | nil => rfl
  | cons hd t ih =>
    obtain ⟨k1, v1⟩ := hd
    by_cases hk : (k1 == k) = true
    · have hk1 : k1 = k := eq_of_beq hk
      have hm : (m == k1) = false := by
        rw [beq_eq_false_iff_ne]
        intro e
        exact hne (hk1 ▸ e)
      have hcond : ¬((!(k1 == k)) = true) := by simp [hk]
      rw [List.filter_cons, if_neg hcond]
      simp only [List.lookup, hm]
      exact ih
    · have hk' : (k1 == k) = false := by
        cases hb : k1 == k
        · rfl
        · exact absurd hb hk
      have hcond : (!(k1 == k)) = true := by simp [hk']
      rw [List.filter_cons, if_pos hcond]
      cases hb : (m == k1) with
      | true => simp only [List.lookup, hb]
      | false =>
        simp only [List.lookup, hb]
        exact ih

theorem length_filter_remove_of_nodup
    (l : List (String × RegisteredComponent)) (k : String)
    (hnd : (l.map Prod.fst).Nodup)
    (h : l.any (fun p => p.1 == k) = true) :
    (l.filter (fun p => !(p.1 == k))).length + 1 = l.length := by
  induction l with
  | nil => simp at h
  | cons hd t ih =>
    obtain ⟨k1, v1⟩ := hd
    simp only [List.map_cons, List.nodup_cons] at hnd
    by_cases hk : (k1 == k) = true
    · have hk1 : k1 = k := eq_of_beq hk
      subst hk1
      have hfilter : t.filter (fun p => !(p.1 == k1)) = t := by
        apply List.filter_eq_self.mpr
        intro p hp
        have hpne : p.1 ≠ k1 :=
          fun e => hnd.1 (e ▸ List.mem_map_of_mem Prod.fst hp)
        simp [beq_eq_false_iff_ne.mpr hpne]
      simp [List.filter_cons, hfilter]
    · have hk' : (k1 == k) = false := by
        cases hb : k1 == k
        · rfl
        · exact absurd hb hk
      have h' : t.any (fun p => p.1 == k) = true := by
        simp only [List.any_cons, hk', Bool.false_or] at h
        exact h
      simp [List.filter_cons, hk', ih hnd.2 h']

/-- C10: removing an absent name returns `false` and performs no write at
all (the state, backing file included, is untouched); removing a present
name returns `true`, drops exactly the entries under that name (exactly
one when the catalog's keys are distinct, which every store built through
`registerComponent`/`loadRegistry` guarantees), persists the remaining
map, and leaves every other name's entry unchanged. -/
theorem claim10_remove_component (st : RegistryState) (name : String) :
    (hasComponent st name = false → removeComponent st name = (false, st)) ∧
    (hasComponent st name = true →
      (removeComponent st name).1 = true ∧
      (removeComponent st name).2.components
        = st.components.filter (fun p => !(p.1 == name)) ∧
      (removeComponent st name).2.file
        = saveRegistry ((removeComponent st name).2.components) ∧
      (∀ m, m ≠ name →
        getComponent (removeComponent st name).2 m = getComponent st m)) ∧
    ((st.components.map Prod.fst).Nodup → hasComponent st name = true →
      (removeComponent st name).2.components.length + 1
        = st.components.length) := by
  refine ⟨?_, ?_, ?_⟩
  · intro h
    unfold hasComponent at h
    simp [removeComponent, h]
  · intro h
    unfold hasComponent at h
    refine ⟨by simp [removeComponent, h], by simp [removeComponent, h],
            by simp [removeComponent, h], ?_⟩
    intro m hm
    simp only [removeComponent, h, if_pos rfl, getComponent]
    exact lookup_filter_ne st.components name m hm
  · intro hnd h
    unfold hasComponent at h
    simp only [removeComponent, h, if_pos rfl]
    exact length_filter_remove_of_nodup st.components name hnd h

/-- A registry with two entries. -/
def stTwo : RegistryState :=
  registerComponent (registerComponent emptyRegistry "Hero" "p1" none [] "t1")
    "Card" "p2" none [] "t2"

/-- Witness for C10 at a concrete two-entry registry. -/
theorem claim10_witness :
    removeComponent stTwo "Nope" = (false, stTwo) ∧
    (removeComponent stTwo "Hero").1 = true ∧
    getComponent (removeComponent stTwo "Hero").2 "Card"
      = getComponent stTwo "Card" ∧
    (removeComponent stTwo "Hero").2.components.length + 1
      = stTwo.components.length :=
  ⟨(claim10_remove_component stTwo "Nope").1 (by decide),
   ((claim10_remove_component stTwo "Hero").2.1 (by decide)).1,
   ((claim10_remove_component stTwo "Hero").2.1 (by decide)).2.2.2 "Card"
     (by decide),
   (claim10_remove_component stTwo "Hero").2.2 (by decide) (by decide)⟩

end PriorityCMS
